import Mathlib

/-!
# Transaction Risk Scoring & Classification Engine — verification

Shallow embedding of the fraud-detection core of
`banking_fraud_api` (`api/main.py`, `core/config.py`).

Scores and thresholds are modelled as exact rationals (`ℚ`).  All score
contributions are multiples of 1/10 and the threshold comparisons performed
by the code are `≥ 0.6`, `≥ 0.8`, `≥ 0.9` and `> 0.8`; on every subset of the
five signal weights the IEEE-double evaluation in the source and the exact
rational evaluation agree on each of those comparisons, so the rational
model is behaviourally faithful to the source on every path the claims
mention.

Effectful parts of the source (correlation-id generation via `uuid4`,
wall-clock timing, logging, HTTP transport) are modelled by passing the
correlation id and the measured elapsed time as explicit parameters; the
decision logic itself is pure in the source and is embedded directly.
-/

namespace BankingFraud

/-- Python `str.lower()` (the source only compares ASCII category labels and
searches for the ASCII substring "unknown", for which per-character
lowercasing coincides with Python's). -/
def pyLower (s : String) : String := String.mk (s.toList.map Char.toLower)

/-- `listLeads needle haystack` : `needle` occurs at the very start of
`haystack` (character-list version). -/
def listLeads : List Char → List Char → Bool
  | [], _ => true
  | _ :: _, [] => false
  | a :: as, b :: bs => a == b && listLeads as bs

/-- `strContains haystack needle` : Python's substring test
`needle in haystack`, on character lists. -/
def strContains : List Char → List Char → Bool
  | [], needle => needle == []
  | h :: t, needle => listLeads needle (h :: t) || strContains t needle

/-- Python `needle in haystack` on strings. -/
def pyContains (haystack needle : String) : Bool :=
  strContains haystack.toList needle.toList

/-- Python truthiness of an optional string (`None` and `""` are falsy):
models `if request.location ...`. -/
def pyTruthyStr : Option String → Bool
  | none => false
  | some s => s ≠ ""

/-- The fields of `Settings` (`core/config.py`) consumed by the scoring
engine, with their defaults in `defaultSettings`.  Amount thresholds are
`Decimal` in the source and coerced with `float(...)` at use sites; tier
boundaries are floats.  Both are exact decimals, modelled as `ℚ`. -/
structure Settings where
  FRAUD_THRESHOLD_LOW : ℚ
  FRAUD_THRESHOLD_MEDIUM : ℚ
  FRAUD_THRESHOLD_HIGH : ℚ
  FRAUD_THRESHOLD_CRITICAL : ℚ
  SUSPICIOUS_AMOUNT_THRESHOLD : ℚ
  HIGH_AMOUNT_THRESHOLD : ℚ
deriving Repr, DecidableEq

/-- The default values of `Settings` in `core/config.py` (lines 48–56). -/
def defaultSettings : Settings where
  FRAUD_THRESHOLD_LOW := 3/10
  FRAUD_THRESHOLD_MEDIUM := 6/10
  FRAUD_THRESHOLD_HIGH := 8/10
  FRAUD_THRESHOLD_CRITICAL := 9/10
  SUSPICIOUS_AMOUNT_THRESHOLD := 10000
  HIGH_AMOUNT_THRESHOLD := 5000

/-- `FraudDetectionRequest` (`api/main.py` lines 50–58).  The engine only
reads the hour of `timestamp`, so the timestamp is embedded as its
hour-of-day; `none` models an absent timestamp (the schema requires one, but
the engine guards on presence, so the optional form subsumes the source).
`device_info` is an opaque attribute bag never read by the engine. -/
structure FraudDetectionRequest where
  transaction_id : String
  user_id : String
  amount : ℚ
  merchant_category : String
  transaction_type : String
  timestamp : Option ℕ
  location : Option String
  device_info : Option (List (String × String)) := none
deriving Repr, DecidableEq

/-- `FraudDetectionResponse` (`api/main.py` lines 61–69). -/
structure FraudDetectionResponse where
  transaction_id : String
  fraud_score : ℚ
  is_fraud : Bool
  risk_level : String
  reasons : List String
  recommendations : List String
  correlation_id : String
  processing_time_ms : ℕ
deriving Repr, DecidableEq

/-- `calculate_fraud_score` (`api/main.py` lines 267–296): additive
heuristic over five independent signals, clamped to 1.0. -/
def calculate_fraud_score (cfg : Settings) (request : FraudDetectionRequest) : ℚ :=
  let score : ℚ := 0
  let score := if request.amount > cfg.SUSPICIOUS_AMOUNT_THRESHOLD then score + 3/10 else score
  let score := if request.amount > cfg.HIGH_AMOUNT_THRESHOLD then score + 2/10 else score
  let score :=
    match request.timestamp with
    | some hour => if hour < 6 || hour > 22 then score + 2/10 else score
    | none => score
  let high_risk_categories := ["gambling", "cryptocurrency", "adult_content"]
  let score :=
    if high_risk_categories.contains (pyLower request.merchant_category)
    then score + 4/10 else score
  let score :=
    if pyTruthyStr request.location
        && pyContains (pyLower (request.location.getD "")) "unknown"
    then score + 3/10 else score
  min score 1

/-- The four risk tiers with their order `LOW < MEDIUM < HIGH < CRITICAL`.
The source represents tiers by the strings produced in `detect_fraud`
(lines 182–189); the enumeration names those four values. -/
inductive RiskTier where
  | LOW
  | MEDIUM
  | HIGH
  | CRITICAL
deriving Repr, DecidableEq

/-- Rank of a tier in the order `LOW < MEDIUM < HIGH < CRITICAL`. -/
def tierRank : RiskTier → ℕ
  | .LOW => 0
  | .MEDIUM => 1
  | .HIGH => 2
  | .CRITICAL => 3

/-- The string the source uses for each tier. -/
def tierName : RiskTier → String
  | .LOW => "LOW"
  | .MEDIUM => "MEDIUM"
  | .HIGH => "HIGH"
  | .CRITICAL => "CRITICAL"

/-- The risk-level cascade of `detect_fraud` (`api/main.py` lines 182–189):
boundaries compared from highest to lowest with `≥`. -/
def classify (cfg : Settings) (fraud_score : ℚ) : RiskTier :=
  if fraud_score ≥ cfg.FRAUD_THRESHOLD_CRITICAL then .CRITICAL
  else if fraud_score ≥ cfg.FRAUD_THRESHOLD_HIGH then .HIGH
  else if fraud_score ≥ cfg.FRAUD_THRESHOLD_MEDIUM then .MEDIUM
  else .LOW

/-- `generate_reasons` (`api/main.py` lines 299–315). -/
def generate_reasons (cfg : Settings) (request : FraudDetectionRequest)
    (fraud_score : ℚ) : List String :=
  let reasons : List String := []
  let reasons :=
    if request.amount > cfg.SUSPICIOUS_AMOUNT_THRESHOLD
    then reasons ++ ["High transaction amount"] else reasons
  let reasons :=
    match request.timestamp with
    | some hour =>
        if hour < 6 || hour > 22 then reasons ++ ["Unusual transaction time"] else reasons
    | none => reasons
  let reasons :=
    if fraud_score > cfg.FRAUD_THRESHOLD_HIGH
    then reasons ++ ["Multiple risk factors detected"] else reasons
  if reasons = [] then ["Transaction appears normal"] else reasons

/-- `generate_recommendations` (`api/main.py` lines 318–338), keyed by the
risk-level string. -/
def generate_recommendations (risk_level : String) : List String :=
  if risk_level = "CRITICAL" then
    ["Block transaction immediately",
     "Contact customer via secure channel",
     "Review recent account activity"]
  else if risk_level = "HIGH" then
    ["Require additional authentication",
     "Review transaction details manually",
     "Monitor future transactions closely"]
  else if risk_level = "MEDIUM" then
    ["Consider additional verification",
     "Log transaction for review"]
  else
    ["Process transaction normally"]

/-- The pure content of `detect_fraud` (`api/main.py` lines 139–221): the
correlation id (middleware-injected) and the measured elapsed time are
passed in explicitly. -/
def detect_fraud (cfg : Settings) (correlation_id : String)
    (processing_time_ms : ℕ) (request : FraudDetectionRequest) :
    FraudDetectionResponse :=
  let fraud_score := calculate_fraud_score cfg request
  let is_fraud := fraud_score ≥ cfg.FRAUD_THRESHOLD_MEDIUM
  let risk_level := tierName (classify cfg fraud_score)
  { transaction_id := request.transaction_id
    fraud_score := fraud_score
    is_fraud := is_fraud
    risk_level := risk_level
    reasons := generate_reasons cfg request fraud_score
    recommendations := generate_recommendations risk_level
    correlation_id := correlation_id
    processing_time_ms := processing_time_ms }

/-- One element of the batch `results` list (`api/main.py` lines 258–262):
the per-item dict literal carries exactly these three keys. -/
structure BatchItem where
  transaction_id : String
  fraud_score : ℚ
  is_fraud : Bool
deriving Repr, DecidableEq

/-- The successful batch response body (`api/main.py` line 264). -/
structure BatchResponse where
  results : List BatchItem
  correlation_id : String
deriving Repr, DecidableEq

/-- `detect_fraud_batch` (`api/main.py` lines 240–264): rejects batches of
more than 100 requests with an HTTP 400 (modelled as `Except.error` carrying
the detail string), otherwise maps the per-item scoring over the input in
order. -/
def detect_fraud_batch (cfg : Settings) (correlation_id : String)
    (requests : List FraudDetectionRequest) : Except String BatchResponse :=
  if requests.length > 100 then
    .error "Batch size too large. Maximum 100 transactions per request."
  else
    .ok
      { results :=
          requests.map fun req =>
            let fraud_score := calculate_fraud_score cfg req
            { transaction_id := req.transaction_id
              fraud_score := fraud_score
              is_fraud := fraud_score ≥ cfg.FRAUD_THRESHOLD_MEDIUM }
        correlation_id := correlation_id }

/-! ## Claim-side signal vocabulary

The five scoring signals, written as the claims state them.  Each is a
decidable `Bool` so a witness can evaluate it on concrete data. -/

/-- Off-hours signal: a timestamp is present and its hour is `< 6` or `> 22`. -/
def offHours : Option ℕ → Bool
  | some hour => hour < 6 || hour > 22
  | none => false

/-- High-risk category signal: the lowercased merchant category is in the
set `{gambling, cryptocurrency, adult_content}`. -/
def highRiskCategory (category : String) : Bool :=
  ["gambling", "cryptocurrency", "adult_content"].contains (pyLower category)

/-- Unknown-location signal: a location is present and contains the
case-insensitive substring "unknown". -/
def unknownLocation : Option String → Bool
  | some loc => pyContains (pyLower loc) "unknown"
  | none => false

/-- The sum of the contributions of exactly the triggered signals, as the
claims describe the score before clamping. -/
def signalSum (cfg : Settings) (req : FraudDetectionRequest) : ℚ :=
  (if req.amount > cfg.SUSPICIOUS_AMOUNT_THRESHOLD then (3:ℚ)/10 else 0)
    + (if req.amount > cfg.HIGH_AMOUNT_THRESHOLD then (2:ℚ)/10 else 0)
    + (if offHours req.timestamp then (2:ℚ)/10 else 0)
    + (if highRiskCategory req.merchant_category then (4:ℚ)/10 else 0)
    + (if unknownLocation req.location then (3:ℚ)/10 else 0)

/-! ## Concrete transactions used by witnesses and counterexamples -/

/-- Scenario 1 of the spec: an ordinary daytime retail transaction. -/
def reqNormal : FraudDetectionRequest :=
  { transaction_id := "txn-normal", user_id := "user-1", amount := 1000,
    merchant_category := "retail", transaction_type := "purchase",
    timestamp := some 14, location := some "Istanbul" }

/-- A daytime low-amount gambling transaction whose location contains
"Unknown": scores 0.7 yet triggers neither the amount nor the time reason. -/
def reqGambling : FraudDetectionRequest :=
  { transaction_id := "txn-gambling", user_id := "user-2", amount := 1000,
    merchant_category := "gambling", transaction_type := "purchase",
    timestamp := some 14, location := some "Unknown City" }

/-- Amount 6000 (only the very-high-amount signal), daytime, no other
signal: score 0.2, no individual reason. -/
def reqAmountOnly : FraudDetectionRequest :=
  { transaction_id := "txn-shared", user_id := "user-3", amount := 6000,
    merchant_category := "retail", transaction_type := "purchase",
    timestamp := some 14, location := none }

/-- Amount 100 at 2 a.m., no other signal: score 0.2 with the unusual-time
reason.  Shares its transaction id with `reqAmountOnly` on purpose. -/
def reqNightOnly : FraudDetectionRequest :=
  { transaction_id := "txn-shared", user_id := "user-4", amount := 100,
    merchant_category := "retail", transaction_type := "purchase",
    timestamp := some 2, location := none }

/-- Amount 6000 gambling transaction at 2 p.m. from an "unknown" location:
score 0.9 with no individual amount/time reason. -/
def reqComposite : FraudDetectionRequest :=
  { transaction_id := "txn-composite", user_id := "user-5", amount := 6000,
    merchant_category := "gambling", transaction_type := "purchase",
    timestamp := some 14, location := some "unknown" }

/-- The concrete batch output for the singleton batch `[reqNormal]`. -/
def batchRespNormal : BatchResponse :=
  { results := [{ transaction_id := "txn-normal", fraud_score := 0, is_fraud := false }]
    correlation_id := "cid" }


/-- A signal-free transaction except for amount 7000. -/
def reqMid : FraudDetectionRequest :=
  { transaction_id := "txn-mid", user_id := "user-6", amount := 7000,
    merchant_category := "retail", transaction_type := "purchase",
    timestamp := some 14, location := none }

/-- A signal-free transaction except for amount 20000. -/
def reqBig : FraudDetectionRequest :=
  { transaction_id := "txn-big", user_id := "user-7", amount := 20000,
    merchant_category := "retail", transaction_type := "purchase",
    timestamp := some 14, location := none }

/-- An empty string contains no occurrence of "unknown". -/
lemma pyContains_empty : pyContains (pyLower "") "unknown" = false := by decide

/-- The location guard of the source (`if request.location and "unknown" in
request.location.lower()`) coincides with the claim-side
`unknownLocation` signal: the only divergence candidate is the falsy empty
string, which cannot contain "unknown" anyway. -/
lemma location_guard_eq (loc : Option String) :
    (pyTruthyStr loc && pyContains (pyLower (loc.getD "")) "unknown")
      = unknownLocation loc := by
  cases loc with
  | none => rfl
  | some s =>
      by_cases h : s = ""
      · subst h
        simp [pyTruthyStr, unknownLocation, pyContains_empty]
      · simp [pyTruthyStr, unknownLocation, h]

/-- The scoring engine computes exactly the clamped signal sum. -/
lemma calculate_fraud_score_eq (cfg : Settings) (req : FraudDetectionRequest) :
    calculate_fraud_score cfg req = min (signalSum cfg req) 1 := by
  unfold calculate_fraud_score signalSum highRiskCategory
  rw [← location_guard_eq]
  cases req.timestamp with
  | none =>
      simp only [offHours]
      split_ifs <;> (try contradiction) <;> norm_num
  | some hour =>
      simp only [offHours]
      split_ifs <;> norm_num

/-- Each signal contribution is non-negative, so the signal sum is
non-negative. -/
lemma signalSum_nonneg (cfg : Settings) (req : FraudDetectionRequest) :
    0 ≤ signalSum cfg req := by
  unfold signalSum
  split_ifs <;> norm_num

/-- The fraud score is the clamped sum, hence lies in `[0, 1]`. -/
lemma calculate_fraud_score_bounds (cfg : Settings) (req : FraudDetectionRequest) :
    0 ≤ calculate_fraud_score cfg req ∧ calculate_fraud_score cfg req ≤ 1 := by
  rw [calculate_fraud_score_eq]
  constructor
  · exact le_min (signalSum_nonneg cfg req) (by norm_num)
  · exact min_le_right _ _

lemma score_reqNormal : calculate_fraud_score defaultSettings reqNormal = 0 := by
  rw [calculate_fraud_score_eq]
  have h1 : offHours (some 14) = false := by decide
  have h2 : highRiskCategory "retail" = false := by decide
  have h3 : unknownLocation (some "Istanbul") = false := by decide
  norm_num [signalSum, reqNormal, defaultSettings, h1, h2, h3]

lemma score_reqGambling : calculate_fraud_score defaultSettings reqGambling = 7/10 := by
  rw [calculate_fraud_score_eq]
  have h1 : offHours (some 14) = false := by decide
  have h2 : highRiskCategory "gambling" = true := by decide
  have h3 : unknownLocation (some "Unknown City") = true := by decide
  norm_num [signalSum, reqGambling, defaultSettings, h1, h2, h3]

lemma score_reqAmountOnly : calculate_fraud_score defaultSettings reqAmountOnly = 2/10 := by
  rw [calculate_fraud_score_eq]
  have h1 : offHours (some 14) = false := by decide
  have h2 : highRiskCategory "retail" = false := by decide
  have h3 : unknownLocation (none : Option String) = false := by decide
  norm_num [signalSum, reqAmountOnly, defaultSettings, h1, h2, h3]

lemma score_reqNightOnly : calculate_fraud_score defaultSettings reqNightOnly = 2/10 := by
  rw [calculate_fraud_score_eq]
  have h1 : offHours (some 2) = true := by decide
  have h2 : highRiskCategory "retail" = false := by decide
  have h3 : unknownLocation (none : Option String) = false := by decide
  norm_num [signalSum, reqNightOnly, defaultSettings, h1, h2, h3]

lemma score_reqComposite : calculate_fraud_score defaultSettings reqComposite = 9/10 := by
  rw [calculate_fraud_score_eq]
  have h1 : offHours (some 14) = false := by decide
  have h2 : highRiskCategory "gambling" = true := by decide
  have h3 : unknownLocation (some "unknown") = true := by decide
  norm_num [signalSum, reqComposite, defaultSettings, h1, h2, h3]

/-! ## Claims -/

/-- **C1.** For every transaction record, the fraud score equals
`min(s, 1.0)` where `s` is the sum of the contributions of exactly the
triggered signals (+0.3 amount above the suspicious threshold, +0.2 amount
above the high threshold, +0.2 off-hours timestamp, +0.4 high-risk
category, +0.3 unknown location); consequently `0 ≤ fraud_score ≤ 1` for
all inputs, and a transaction triggering no signal scores exactly 0. -/
theorem claim_C1 (cfg : Settings) (req : FraudDetectionRequest) :
    calculate_fraud_score cfg req = min (signalSum cfg req) 1
      ∧ 0 ≤ calculate_fraud_score cfg req
      ∧ calculate_fraud_score cfg req ≤ 1
      ∧ (¬ req.amount > cfg.SUSPICIOUS_AMOUNT_THRESHOLD →
          ¬ req.amount > cfg.HIGH_AMOUNT_THRESHOLD →
          offHours req.timestamp = false →
          highRiskCategory req.merchant_category = false →
          unknownLocation req.location = false →
          calculate_fraud_score cfg req = 0) := by
  refine ⟨calculate_fraud_score_eq cfg req, (calculate_fraud_score_bounds cfg req).1,
    (calculate_fraud_score_bounds cfg req).2, ?_⟩
  intro h1 h2 h3 h4 h5
  rw [calculate_fraud_score_eq]
  unfold signalSum
  rw [if_neg h1, if_neg h2, h3, h4, h5]
  norm_num

/-- Witness for C1 at Scenario 1 of the spec: the no-signal transaction
`reqNormal` scores exactly 0. -/
theorem claim_C1_witness : calculate_fraud_score defaultSettings reqNormal = 0 :=
  (claim_C1 defaultSettings reqNormal).2.2.2
    (by norm_num [reqNormal, defaultSettings]) (by norm_num [reqNormal, defaultSettings])
    (by decide) (by decide) (by decide)

/-- **C2.** The risk tier is determined by comparing the score against the
configured boundaries from highest to lowest using `≥`: CRITICAL iff
`score ≥ critical`, else HIGH iff `score ≥ high`, else MEDIUM iff
`score ≥ medium`, else LOW; every score receives exactly one tier, and a
score exactly equal to a boundary belongs to the higher tier. -/
theorem claim_C2 (cfg : Settings) (s : ℚ) :
    (∃! t : RiskTier, classify cfg s = t)
      ∧ (classify cfg s = .CRITICAL ↔ s ≥ cfg.FRAUD_THRESHOLD_CRITICAL)
      ∧ (classify cfg s = .HIGH ↔
          ¬ s ≥ cfg.FRAUD_THRESHOLD_CRITICAL ∧ s ≥ cfg.FRAUD_THRESHOLD_HIGH)
      ∧ (classify cfg s = .MEDIUM ↔
          ¬ s ≥ cfg.FRAUD_THRESHOLD_CRITICAL ∧ ¬ s ≥ cfg.FRAUD_THRESHOLD_HIGH
            ∧ s ≥ cfg.FRAUD_THRESHOLD_MEDIUM)
      ∧ (classify cfg s = .LOW ↔
          ¬ s ≥ cfg.FRAUD_THRESHOLD_CRITICAL ∧ ¬ s ≥ cfg.FRAUD_THRESHOLD_HIGH
            ∧ ¬ s ≥ cfg.FRAUD_THRESHOLD_MEDIUM)
      ∧ tierRank (classify cfg cfg.FRAUD_THRESHOLD_CRITICAL) = tierRank .CRITICAL
      ∧ tierRank .HIGH ≤ tierRank (classify cfg cfg.FRAUD_THRESHOLD_HIGH)
      ∧ tierRank .MEDIUM ≤ tierRank (classify cfg cfg.FRAUD_THRESHOLD_MEDIUM) := by
  refine ⟨⟨classify cfg s, rfl, fun t ht => ht.symm⟩, ?_, ?_, ?_, ?_, ?_, ?_, ?_⟩ <;>
    simp only [classify] <;> split_ifs <;> simp_all [tierRank]

/-- **C8.** Classification is monotone in the score: for scores in `[0,1]`,
classification returns exactly one tier for each, and `s1 > s2` implies
`tier(s1) ≥ tier(s2)` in the order `LOW < MEDIUM < HIGH < CRITICAL`. -/
theorem claim_C8 (cfg : Settings) (s1 s2 : ℚ)
    (hs1 : 0 ≤ s1 ∧ s1 ≤ 1) (hs2 : 0 ≤ s2 ∧ s2 ≤ 1) (h : s1 > s2) :
    (∃! t : RiskTier, classify cfg s1 = t)
      ∧ (∃! t : RiskTier, classify cfg s2 = t)
      ∧ tierRank (classify cfg s2) ≤ tierRank (classify cfg s1) := by
  refine ⟨⟨classify cfg s1, rfl, fun t ht => ht.symm⟩,
    ⟨classify cfg s2, rfl, fun t ht => ht.symm⟩, ?_⟩
  simp only [classify]
  split_ifs <;> simp_all [tierRank] <;> linarith

/-- Witness for C8: default boundaries, scores 0.7 > 0.5. -/
theorem claim_C8_witness :
    (∃! t : RiskTier, classify defaultSettings (7/10) = t)
      ∧ (∃! t : RiskTier, classify defaultSettings (1/2) = t)
      ∧ tierRank (classify defaultSettings (1/2))
          ≤ tierRank (classify defaultSettings (7/10)) :=
  claim_C8 defaultSettings (7/10) (1/2)
    (by norm_num) (by norm_num) (by norm_num)

/-- On a batch within the ceiling, `detect_fraud_batch` returns the ordered
map of the per-item scoring over the input. -/
lemma detect_fraud_batch_ok (cfg : Settings) (cid : String)
    (reqs : List FraudDetectionRequest) (h : ¬ reqs.length > 100) :
    detect_fraud_batch cfg cid reqs =
      .ok { results :=
              reqs.map fun req =>
                { transaction_id := req.transaction_id
                  fraud_score := calculate_fraud_score cfg req
                  is_fraud := calculate_fraud_score cfg req ≥ cfg.FRAUD_THRESHOLD_MEDIUM }
            correlation_id := cid } := by
  unfold detect_fraud_batch
  rw [if_neg h]

/-- The singleton batch of the normal transaction evaluates to the concrete
three-field response. -/
lemma batch_reqNormal_eval :
    detect_fraud_batch defaultSettings "cid" [reqNormal] = .ok batchRespNormal := by
  rw [detect_fraud_batch_ok _ _ _ (by simp)]
  simp only [List.map_cons, List.map_nil, score_reqNormal, batchRespNormal]
  norm_num [reqNormal, defaultSettings]

/-- **C3.** The batch operation fails with the batch-too-large error exactly
when the input has more than 100 elements; in that case no results are
returned, while a batch of exactly 100 elements is accepted and fully
processed. -/
theorem claim_C3 (cfg : Settings) (cid : String)
    (reqs : List FraudDetectionRequest) :
    ((∃ e, detect_fraud_batch cfg cid reqs = .error e) ↔ reqs.length > 100)
      ∧ (reqs.length > 100 →
          detect_fraud_batch cfg cid reqs
              = .error "Batch size too large. Maximum 100 transactions per request."
            ∧ ∀ resp, detect_fraud_batch cfg cid reqs ≠ .ok resp)
      ∧ (reqs.length = 100 →
          ∃ resp, detect_fraud_batch cfg cid reqs = .ok resp
            ∧ resp.results.length = 100) := by
  unfold detect_fraud_batch
  split_ifs with h
  · exact ⟨⟨fun _ => h, fun _ => ⟨_, rfl⟩⟩,
      fun _ => ⟨rfl, fun resp hr => Except.noConfusion hr⟩,
      fun h100 => absurd h (by omega)⟩
  · refine ⟨⟨?_, fun hg => absurd hg h⟩, fun hg => absurd hg h,
      fun h100 => ⟨_, rfl, by simp [h100]⟩⟩
    rintro ⟨e, he⟩
    exact he.elim

/-- Witness for C3: a batch of 101 copies of the normal transaction is
rejected with the exact error message, and a batch of 100 copies is accepted
with 100 results. -/
theorem claim_C3_witness :
    detect_fraud_batch defaultSettings "cid" (List.replicate 101 reqNormal)
        = .error "Batch size too large. Maximum 100 transactions per request."
      ∧ ∃ resp,
          detect_fraud_batch defaultSettings "cid" (List.replicate 100 reqNormal)
              = .ok resp
            ∧ resp.results.length = 100 :=
  ⟨((claim_C3 defaultSettings "cid" (List.replicate 101 reqNormal)).2.1 (by simp)).1,
   (claim_C3 defaultSettings "cid" (List.replicate 100 reqNormal)).2.2 (by simp)⟩

/-- **C4.** Every accepted batch returns as many results as inputs, and
`results[i].transaction_id = txns[i].transaction_id` at every index: input
order is preserved with 1:1 alignment. -/
theorem claim_C4 (cfg : Settings) (cid : String)
    (reqs : List FraudDetectionRequest) (h : reqs.length ≤ 100) :
    ∃ resp, detect_fraud_batch cfg cid reqs = .ok resp
      ∧ resp.results.length = reqs.length
      ∧ ∀ i (hi : i < resp.results.length) (hj : i < reqs.length),
          (resp.results.get ⟨i, hi⟩).transaction_id
            = (reqs.get ⟨i, hj⟩).transaction_id := by
  refine ⟨_, detect_fraud_batch_ok cfg cid reqs (by omega), by simp, ?_⟩
  intro i hi hj
  simp [List.get_eq_getElem, List.getElem_map]

/-- Witness for C4: a two-element batch is accepted, aligned and ordered. -/
theorem claim_C4_witness :
    ∃ resp,
      detect_fraud_batch defaultSettings "cid" [reqNormal, reqGambling] = .ok resp
        ∧ resp.results.length = ([reqNormal, reqGambling] : List _).length
        ∧ ∀ i (hi : i < resp.results.length)
            (hj : i < ([reqNormal, reqGambling] : List _).length),
            (resp.results.get ⟨i, hi⟩).transaction_id
              = (([reqNormal, reqGambling] : List _).get ⟨i, hj⟩).transaction_id :=
  claim_C4 defaultSettings "cid" [reqNormal, reqGambling] (by simp)

/-- **C7.** On both the single-transaction path and the batch path, the
`is_fraud` flag of the outcome is true iff the fraud score is at least the
MEDIUM boundary. -/
theorem claim_C7 (cfg : Settings) (cid : String) (t : ℕ)
    (req : FraudDetectionRequest) :
    ((detect_fraud cfg cid t req).is_fraud = true
        ↔ calculate_fraud_score cfg req ≥ cfg.FRAUD_THRESHOLD_MEDIUM)
      ∧ ∀ (reqs : List FraudDetectionRequest) (resp : BatchResponse),
          detect_fraud_batch cfg cid reqs = .ok resp →
          ∀ i (hi : i < resp.results.length) (hj : i < reqs.length),
            ((resp.results.get ⟨i, hi⟩).is_fraud = true
              ↔ calculate_fraud_score cfg (reqs.get ⟨i, hj⟩)
                  ≥ cfg.FRAUD_THRESHOLD_MEDIUM) := by
  constructor
  · simp [detect_fraud]
  · intro reqs resp hok i hi hj
    by_cases h : reqs.length > 100
    · unfold detect_fraud_batch at hok
      rw [if_pos h] at hok
      exact Except.noConfusion hok
    · rw [detect_fraud_batch_ok cfg cid reqs h] at hok
      injection hok with h2
      subst h2
      simp [List.get_eq_getElem, List.getElem_map]

/-- Witness for C7: the 0.7-scoring gambling transaction on the single
path, and element 0 of the concrete singleton batch of the normal
transaction, are each flagged iff their score reaches the MEDIUM bound. -/
theorem claim_C7_witness :
    ((detect_fraud defaultSettings "cid" 0 reqGambling).is_fraud = true
        ↔ calculate_fraud_score defaultSettings reqGambling
            ≥ defaultSettings.FRAUD_THRESHOLD_MEDIUM)
      ∧ ((batchRespNormal.results.get ⟨0, by simp [batchRespNormal]⟩).is_fraud = true
          ↔ calculate_fraud_score defaultSettings
              (([reqNormal] : List _).get ⟨0, by simp⟩)
              ≥ defaultSettings.FRAUD_THRESHOLD_MEDIUM) :=
  ⟨(claim_C7 defaultSettings "cid" 0 reqGambling).1,
   (claim_C7 defaultSettings "cid" 0 reqGambling).2 [reqNormal] batchRespNormal
     batch_reqNormal_eval 0 (by simp [batchRespNormal]) (by simp)⟩

/-- Reasons for the amount-only transaction at its score 0.2: none of the
three checks fires, so the sentinel is emitted. -/
lemma reasons_reqAmountOnly :
    generate_reasons defaultSettings reqAmountOnly (2/10)
      = ["Transaction appears normal"] := by
  unfold generate_reasons
  norm_num [reqAmountOnly, defaultSettings]

/-- Reasons for the night-only transaction at its score 0.2: only the
unusual-time reason fires. -/
lemma reasons_reqNightOnly :
    generate_reasons defaultSettings reqNightOnly (2/10)
      = ["Unusual transaction time"] := by
  unfold generate_reasons
  norm_num [reqNightOnly, defaultSettings]

/-- **C5, counterexample.** Two transactions sharing a transaction id but
differing in reasons (sentinel vs unusual-time) produce *identical* batch
outputs: a batch result element therefore cannot carry the full
single-transaction outcome (risk tier, reasons, recommendations,
per-item correlation and timing are absent). -/
theorem claim_C5_counterexample :
    detect_fraud_batch defaultSettings "cid" [reqAmountOnly]
        = detect_fraud_batch defaultSettings "cid" [reqNightOnly]
      ∧ generate_reasons defaultSettings reqAmountOnly
            (calculate_fraud_score defaultSettings reqAmountOnly)
          ≠ generate_reasons defaultSettings reqNightOnly
            (calculate_fraud_score defaultSettings reqNightOnly) := by
  constructor
  · rw [detect_fraud_batch_ok _ _ _ (by simp), detect_fraud_batch_ok _ _ _ (by simp)]
    simp only [List.map_cons, List.map_nil, score_reqAmountOnly, score_reqNightOnly]
    norm_num [reqAmountOnly, reqNightOnly, defaultSettings]
  · rw [score_reqAmountOnly, score_reqNightOnly,
      reasons_reqAmountOnly, reasons_reqNightOnly]
    simp

/-- **C5, amended.** Each element of an accepted batch carries exactly the
transaction id, the fraud score and the `is_fraud` flag of its input (the
correlation id appears once at batch level); risk tier, reasons,
recommendations and per-item timing are not part of the batch outcome. -/
theorem claim_C5_amended (cfg : Settings) (cid : String)
    (reqs : List FraudDetectionRequest) (resp : BatchResponse)
    (hok : detect_fraud_batch cfg cid reqs = .ok resp) :
    resp.correlation_id = cid
      ∧ resp.results.length = reqs.length
      ∧ ∀ i (hi : i < resp.results.length) (hj : i < reqs.length),
          resp.results.get ⟨i, hi⟩ =
            { transaction_id := (reqs.get ⟨i, hj⟩).transaction_id
              fraud_score := calculate_fraud_score cfg (reqs.get ⟨i, hj⟩)
              is_fraud := calculate_fraud_score cfg (reqs.get ⟨i, hj⟩)
                  ≥ cfg.FRAUD_THRESHOLD_MEDIUM } := by
  by_cases h : reqs.length > 100
  · unfold detect_fraud_batch at hok
    rw [if_pos h] at hok
    exact Except.noConfusion hok
  · rw [detect_fraud_batch_ok cfg cid reqs h] at hok
    injection hok with h2
    subst h2
    refine ⟨rfl, by simp, ?_⟩
    intro i hi hj
    simp [List.get_eq_getElem, List.getElem_map]

/-- Witness for the amended C5 on the concrete singleton batch. -/
theorem claim_C5_amended_witness :
    batchRespNormal.correlation_id = "cid"
      ∧ batchRespNormal.results.length = ([reqNormal] : List _).length :=
  have h := claim_C5_amended defaultSettings "cid" [reqNormal] batchRespNormal
    batch_reqNormal_eval
  ⟨h.1, h.2.1⟩

/-- **C6, counterexample.** A 0.9-scoring transaction (amount 6000,
daytime, gambling, unknown location) qualifies for *no individual*
(amount/time) reason, yet its reason list is the composite reason, not the
sentinel: the claim's final clause fails as stated. -/
theorem claim_C6_counterexample :
    ¬ reqComposite.amount > defaultSettings.SUSPICIOUS_AMOUNT_THRESHOLD
      ∧ offHours reqComposite.timestamp = false
      ∧ generate_reasons defaultSettings reqComposite
          (calculate_fraud_score defaultSettings reqComposite)
          = ["Multiple risk factors detected"]
      ∧ generate_reasons defaultSettings reqComposite
          (calculate_fraud_score defaultSettings reqComposite)
          ≠ ["Transaction appears normal"] := by
  have hr : generate_reasons defaultSettings reqComposite
      (calculate_fraud_score defaultSettings reqComposite)
      = ["Multiple risk factors detected"] := by
    rw [score_reqComposite]
    unfold generate_reasons
    norm_num [reqComposite, defaultSettings]
  refine ⟨by norm_num [reqComposite, defaultSettings], by decide, hr, ?_⟩
  rw [hr]
  simp

/-- **C6, amended.** The reason list is always non-empty; it contains the
amount reason when the amount exceeds the suspicious threshold, the time
reason when an off-hours timestamp is present, and the composite reason
whenever the score strictly exceeds the HIGH boundary regardless of which
individual signals fired; when no individual reason qualifies *and the
score does not exceed the HIGH boundary*, the list is exactly the
sentinel. -/
theorem claim_C6 (cfg : Settings) (req : FraudDetectionRequest) (score : ℚ) :
    generate_reasons cfg req score ≠ []
      ∧ (req.amount > cfg.SUSPICIOUS_AMOUNT_THRESHOLD →
          "High transaction amount" ∈ generate_reasons cfg req score)
      ∧ (offHours req.timestamp = true →
          "Unusual transaction time" ∈ generate_reasons cfg req score)
      ∧ (score > cfg.FRAUD_THRESHOLD_HIGH →
          "Multiple risk factors detected" ∈ generate_reasons cfg req score)
      ∧ (¬ req.amount > cfg.SUSPICIOUS_AMOUNT_THRESHOLD →
          offHours req.timestamp = false →
          ¬ score > cfg.FRAUD_THRESHOLD_HIGH →
          generate_reasons cfg req score = ["Transaction appears normal"]) := by
  unfold generate_reasons
  cases ht : req.timestamp with
  | none => simp only [offHours] <;> split_ifs <;> simp_all
  | some hour => simp only [offHours] <;> split_ifs <;> simp_all <;> omega

/-- Witness for the amended C6: at score 0 the normal transaction gets
exactly the sentinel reason, and the 0.9-scoring composite transaction gets
the composite reason. -/
theorem claim_C6_witness :
    generate_reasons defaultSettings reqNormal 0 = ["Transaction appears normal"]
      ∧ "Multiple risk factors detected"
          ∈ generate_reasons defaultSettings reqComposite (9/10) :=
  ⟨(claim_C6 defaultSettings reqNormal 0).2.2.2.2
      (by norm_num [reqNormal, defaultSettings]) (by decide)
      (by norm_num [defaultSettings]),
   (claim_C6 defaultSettings reqComposite (9/10)).2.2.2.1
      (by norm_num [defaultSettings])⟩

/-- Reasons for the gambling transaction at its score 0.7: neither
individual check fires and 0.7 does not exceed 0.8, so the sentinel is
emitted. -/
lemma reasons_reqGambling :
    generate_reasons defaultSettings reqGambling (7/10)
      = ["Transaction appears normal"] := by
  unfold generate_reasons
  norm_num [reqGambling, defaultSettings]

/-- **C9.** There exists a transaction flagged `is_fraud = true` whose
reason list is exactly the sentinel: under default thresholds, amount 1000
(at most 5000), daytime hour, category "gambling" and a location containing
"unknown" score 0.7 — at least the MEDIUM bound 0.6 but not strictly above
the HIGH bound 0.8 — triggering neither individual reason. -/
theorem claim_C9 :
    reqGambling.amount ≤ 5000
      ∧ offHours reqGambling.timestamp = false
      ∧ calculate_fraud_score defaultSettings reqGambling = 7/10
      ∧ (detect_fraud defaultSettings "cid" 0 reqGambling).is_fraud = true
      ∧ (detect_fraud defaultSettings "cid" 0 reqGambling).reasons
          = ["Transaction appears normal"] := by
  refine ⟨by norm_num [reqGambling], by decide, score_reqGambling, ?_, ?_⟩
  · unfold detect_fraud
    simp only [score_reqGambling]
    norm_num [defaultSettings]
  · unfold detect_fraud
    simp only [score_reqGambling]
    exact reasons_reqGambling

/-- **C10.** In the default configuration the very-high-amount threshold
(5000) is below the high-amount threshold (10000): for an otherwise
signal-free transaction, an amount in (5000, 10000] fires only the +0.2
signal (score 0.2) and an amount above 10000 fires both amount signals
(score 0.5). -/
theorem claim_C10 :
    defaultSettings.HIGH_AMOUNT_THRESHOLD
        < defaultSettings.SUSPICIOUS_AMOUNT_THRESHOLD
      ∧ ∀ req : FraudDetectionRequest,
          offHours req.timestamp = false →
          highRiskCategory req.merchant_category = false →
          unknownLocation req.location = false →
          (5000 < req.amount → req.amount ≤ 10000 →
              req.amount > defaultSettings.HIGH_AMOUNT_THRESHOLD
                ∧ ¬ req.amount > defaultSettings.SUSPICIOUS_AMOUNT_THRESHOLD
                ∧ calculate_fraud_score defaultSettings req = 2/10)
            ∧ (10000 < req.amount →
                req.amount > defaultSettings.HIGH_AMOUNT_THRESHOLD
                  ∧ req.amount > defaultSettings.SUSPICIOUS_AMOUNT_THRESHOLD
                  ∧ calculate_fraud_score defaultSettings req = 1/2) := by
  refine ⟨by norm_num [defaultSettings], ?_⟩
  intro req h1 h2 h3
  constructor
  · intro ha hb
    have hh : req.amount > defaultSettings.HIGH_AMOUNT_THRESHOLD := by
      simp only [defaultSettings]; exact ha
    have hs : ¬ req.amount > defaultSettings.SUSPICIOUS_AMOUNT_THRESHOLD := by
      simp only [defaultSettings]; exact not_lt.mpr hb
    refine ⟨hh, hs, ?_⟩
    rw [calculate_fraud_score_eq]
    unfold signalSum
    rw [if_neg hs, if_pos hh, h1, h2, h3]
    norm_num
  · intro ha
    have hh : req.amount > defaultSettings.HIGH_AMOUNT_THRESHOLD := by
      simp only [defaultSettings]; linarith
    have hs : req.amount > defaultSettings.SUSPICIOUS_AMOUNT_THRESHOLD := by
      simp only [defaultSettings]; exact ha
    refine ⟨hh, hs, ?_⟩
    rw [calculate_fraud_score_eq]
    unfold signalSum
    rw [if_pos hs, if_pos hh, h1, h2, h3]
    norm_num

/-- Witness for C10 at amounts 7000 and 20000. -/
theorem claim_C10_witness :
    calculate_fraud_score defaultSettings reqMid = 2/10
      ∧ calculate_fraud_score defaultSettings reqBig = 1/2 :=
  ⟨((claim_C10.2 reqMid (by decide) (by decide) (by decide)).1
      (by norm_num [reqMid]) (by norm_num [reqMid])).2.2,
   ((claim_C10.2 reqBig (by decide) (by decide) (by decide)).2
      (by norm_num [reqBig])).2.2⟩

end BankingFraud
